import Mathlib

/-!
Shallow embedding of the recycling-rewards kiosk web app (src/main.py and
src/database.py): data model (users, products, transactions), session
resolution, login/signup validation, the purchase workflow, and the admin
mutations, together with theorems about them.

Python integers are unbounded, so every numeric column is modelled as `Int`
(timestamps as a `Nat` tick counter).  A SQLAlchemy table is modelled as a
`List` of rows; `query(...).filter(col == v).first()` is `List.find?`,
`UPDATE`-by-primary-key is `List.map` guarded on the id, `DELETE` is
`List.filter`, and the autoincrement primary key is an explicit `nextUserId`
/ `nextTxId` counter on the store.
-/

namespace Rsw

/-- Row of the `users` table (database.py, class User). -/
structure User where
  id : Int
  name : String
  student_id : Int
  password : Int
  points : Int
  is_admin : Bool
deriving Repr, DecidableEq

/-- Row of the `products` table (database.py, class Product). -/
structure Product where
  id : Int
  name : String
  cost_points : Int
  stock_quantity : Int
  icon_name : String
deriving Repr, DecidableEq

/-- Row of the `transactions` table (database.py, class Transaction).
`timestamp` models `datetime.utcnow()` as a tick counter. -/
structure Transaction where
  id : Int
  user_id : Int
  item_name : String
  point_change : Int
  timestamp : Nat
deriving Repr, DecidableEq

/-- The persistent store: the three tables plus the autoincrement counters
and a clock supplying `datetime.utcnow()` values. -/
structure Store where
  users : List User
  products : List Product
  transactions : List Transaction
  nextUserId : Int
  nextTxId : Int
  clock : Nat
deriving Repr, DecidableEq

/-- The server-side session dict: the two keys main.py writes
(`user_id`, `is_admin`); a missing key reads as `none`. -/
structure Session where
  user_id : Option Int
  is_admin : Option Bool
deriving Repr, DecidableEq

/-- The observable HTTP responses main.py produces: redirects and the
rendered templates (with the context fields the templates receive). -/
inductive Response where
  | redirect (url : String)
  | loginPage (mode : String) (error : Option String)
  | dashboardPage (user : User) (products : List Product)
      (transactions : List Transaction) (user_rank : Nat)
      (top_users : List User) (error : Option String)
  | adminPage (admin : User) (users : List User) (total_users : Nat)
      (products : List Product)
deriving Repr, DecidableEq

/-- First code points of the runs of ten decimal digits (Unicode 15.0
general category Nd): ASCII, Arabic-Indic, extended Arabic-Indic, NKo, the
Indic scripts, Thai, Lao, Tibetan, Myanmar (three runs), Khmer, Mongolian,
Limbu, New Tai Lue, Tai Tham (two runs), Balinese, Sundanese, Lepcha,
Ol Chiki, Vai, Saurashtra, Kayah Li, Javanese, Cham, Meetei Mayek,
fullwidth, and the supplementary-plane scripts including the mathematical
digit runs.  Characters in these runs are the ones `int()` parses. -/
def ndRangeStarts : List Nat :=
  [0x30, 0x660, 0x6F0, 0x7C0, 0x966, 0x9E6, 0xA66, 0xAE6, 0xB66, 0xBE6,
   0xC66, 0xCE6, 0xD66, 0xDE6, 0xE50, 0xED0, 0xF20, 0x1040, 0x1090, 0x17E0,
   0x1810, 0x1946, 0x19D0, 0x1A80, 0x1A90, 0x1B50, 0x1BB0, 0x1C40, 0x1C50,
   0xA620, 0xA8D0, 0xA900, 0xA9D0, 0xA9F0, 0xAA50, 0xABF0, 0xFF10,
   0x104A0, 0x10D30, 0x11066, 0x110F0, 0x11136, 0x111D0, 0x112F0, 0x11450,
   0x114D0, 0x11650, 0x116C0, 0x11730, 0x118E0, 0x11950, 0x11C50, 0x11D50,
   0x11DA0, 0x11F50, 0x16A60, 0x16AC0, 0x16B50, 0x1D7CE, 0x1D7D8, 0x1D7E2,
   0x1D7EC, 0x1D7F6, 0x1E140, 0x1E2F0, 0x1E4F0, 0x1E950, 0x1FBF0]

/-- Value of a Unicode decimal digit (category Nd), `none` otherwise.
This is the set of characters Python's `int()` accepts as digits. -/
def py_digit_val (c : Char) : Option Nat :=
  (ndRangeStarts.find? (fun b => decide (b ≤ c.toNat) && decide (c.toNat ≤ b + 9))).map
    (fun b => c.toNat - b)

/-- Code-point ranges with Unicode `Numeric_Type=Digit` (Unicode 15.0):
superscripts and subscripts, Ethiopic digits, the New Tai Lue tham digit,
circled / parenthesized / full-stop / double-circled / dingbat digit
forms, Kharoshthi digits, and the digit-with-separator compatibility
forms.  Python's `str.isdigit()` accepts these in addition to the decimal
digits, but `int()` rejects them. -/
def digitTypeRanges : List (Nat × Nat) :=
  [(0xB2, 0xB3), (0xB9, 0xB9), (0x1369, 0x1371), (0x19DA, 0x19DA),
   (0x2070, 0x2070), (0x2074, 0x2079), (0x2080, 0x2089), (0x2460, 0x2468),
   (0x2474, 0x247C), (0x2488, 0x2490), (0x24EA, 0x24EA), (0x24F5, 0x24FD),
   (0x24FF, 0x24FF), (0x2776, 0x277E), (0x2780, 0x2788), (0x278A, 0x2792),
   (0x10A40, 0x10A43), (0x1F100, 0x1F10A)]

/-- Python's `str.isdigit()` on one character: true for decimal digits
(`Numeric_Type=Decimal`, category Nd) and for `Numeric_Type=Digit`
characters. -/
def py_isdigit (c : Char) : Bool :=
  (py_digit_val c).isSome ||
    digitTypeRanges.any (fun r => decide (r.1 ≤ c.toNat) && decide (c.toNat ≤ r.2))

/-- `validate_password` (main.py): non-empty, every character a digit in
Python's `str.isdigit()` sense, and exactly 4 characters long. -/
def validate_password (password : String) : Bool :=
  if password.isEmpty then false
  else if !(password.toList.all py_isdigit) then false
  else if password.length ≠ 4 then false
  else true

/-- `validate_student_id` (main.py): non-empty, every character a digit in
Python's `str.isdigit()` sense, and 9-10 characters long. -/
def validate_student_id (student_id : String) : Bool :=
  if student_id.isEmpty then false
  else if !(student_id.toList.all py_isdigit) then false
  else if student_id.length < 9 ∨ 10 < student_id.length then false
  else true

/-- Decimal parse of a character list: fails on the first character that
is not a decimal digit. -/
def py_parse_int : List Char → Nat → Option Nat
  | [], acc => some acc
  | c :: cs, acc =>
      match py_digit_val c with
      | none => none
      | some d => py_parse_int cs (acc * 10 + d)

/-- `int(s)` as used by login/signup: parses a non-empty string of decimal
digits (any Unicode script); `none` models the `ValueError` branch, raised
for the empty string and for any character that is not a decimal digit —
including `Numeric_Type=Digit` characters that pass `str.isdigit()`.
(Signs, whitespace and underscores, which `int()` also tolerates, cannot
occur here: both call sites run only on digit-validated strings.) -/
def str_to_int (s : String) : Option Int :=
  if s.isEmpty then none
  else (py_parse_int s.toList 0).map Int.ofNat

/-- `get_user_from_session` (main.py).  `if not user_id` in Python is true
both for a missing key and for the falsy value `0`, so a stored `0` also
resolves to no user. -/
def get_user_from_session (sess : Session) (s : Store) : Option User :=
  match sess.user_id with
  | none => none
  | some uid =>
      if uid == 0 then none
      else s.users.find? (fun u => u.id == uid)

/-- `startup_event` (main.py): seed the admin row (`student_id` 0,
password 1234) if no user with `student_id` 0 exists. -/
def startup_event (s : Store) : Store :=
  match s.users.find? (fun u => u.student_id == 0) with
  | some _ => s
  | none =>
      { s with
        users := s.users ++ [⟨s.nextUserId, "Admin", 0, 1234, 0, true⟩]
        nextUserId := s.nextUserId + 1 }

/-- `login` (main.py, POST /api/login).  Returns the response and the
session after the request (the store is never written). -/
def login (student_id password : String) (sess : Session) (s : Store) :
    Response × Session :=
  if !validate_student_id student_id then
    (Response.loginPage "login" (some "Invalid StudentID. Must be 9-10 digits."), sess)
  else if !validate_password password then
    (Response.loginPage "login" (some "Invalid password. Must be exactly 4 digits."), sess)
  else
    match str_to_int student_id with
    | none =>
        (Response.loginPage "login" (some "Invalid StudentID. Must be numeric."), sess)
    | some sid =>
        match s.users.find? (fun u => u.student_id == sid) with
        | none =>
            (Response.loginPage "login" (some "Invalid StudentID or password."), sess)
        | some user =>
            -- password passed validate_password, so int(password) cannot fail
            if user.password ≠ (str_to_int password).getD 0 then
              (Response.loginPage "login" (some "Invalid StudentID or password."), sess)
            else
              (if user.is_admin then Response.redirect "/admin"
               else Response.redirect "/dashboard",
               ⟨some user.id, some user.is_admin⟩)

/-- `signup` (main.py, POST /api/signup). -/
def signup (name student_id password : String) (sess : Session) (s : Store) :
    Response × Store × Session :=
  if !validate_student_id student_id then
    (Response.loginPage "signup" (some "Invalid StudentID. Must be 9-10 digits."), s, sess)
  else if !validate_password password then
    (Response.loginPage "signup" (some "Invalid password. Must be exactly 4 digits."), s, sess)
  else
    match str_to_int student_id with
    | none =>
        (Response.loginPage "signup" (some "Invalid StudentID. Must be numeric."), s, sess)
    | some sid =>
        match s.users.find? (fun u => u.student_id == sid) with
        | some _ =>
            (Response.loginPage "signup" (some "StudentID already exists."), s, sess)
        | none =>
            let newUser : User := ⟨s.nextUserId, name, sid, (str_to_int password).getD 0, 0, false⟩
            (Response.redirect "/dashboard",
             { s with users := s.users ++ [newUser], nextUserId := s.nextUserId + 1 },
             ⟨some newUser.id, some false⟩)

/-- Insertion sort descending by an integer key, modelling
`ORDER BY ... DESC` on the leaderboard query. -/
def insertDescBy {α : Type} (key : α → Int) (a : α) : List α → List α
  | [] => [a]
  | b :: l => if key b < key a then a :: b :: l else b :: insertDescBy key a l

/-- Sort a list descending by an integer key. -/
def sortDescBy {α : Type} (key : α → Int) : List α → List α
  | [] => []
  | a :: l => insertDescBy key a (sortDescBy key l)

/-- The last-10-transactions query of `dashboard`: filter by user, order by
timestamp descending, limit 10. -/
def user_transactions (uid : Int) (s : Store) : List Transaction :=
  (sortDescBy (fun t => (t.timestamp : Int))
    (s.transactions.filter (fun t => t.user_id == uid))).take 10

/-- The rank computation of `dashboard`: 1-based index of the user in the
points-descending list, defaulting to length+1. -/
def user_rank_of (uid : Int) (all_users : List User) : Nat :=
  match all_users.findIdx? (fun u => u.id == uid) with
  | some i => i + 1
  | none => all_users.length + 1

/-- `dashboard` (main.py, GET /dashboard); read-only, so only the response
is returned. -/
def dashboard (sess : Session) (error : Option String) (s : Store) : Response :=
  match get_user_from_session sess s with
  | none => Response.redirect "/login"
  | some user =>
      if user.is_admin then Response.redirect "/admin"
      else
        let all_users := sortDescBy (fun u => u.points)
          (s.users.filter (fun u => !u.is_admin))
        Response.dashboardPage user s.products (user_transactions user.id s)
          (user_rank_of user.id all_users) (all_users.take 6) error

/-- `purchase` (main.py, POST /api/purchase): the core workflow.  Checks
session, product existence, stock, then balance; on success debits points,
decrements stock and appends one ledger entry. -/
def purchase (sess : Session) (product_id : Int) (s : Store) :
    Response × Store :=
  match get_user_from_session sess s with
  | none => (Response.redirect "/login", s)
  | some user =>
      match s.products.find? (fun p => p.id == product_id) with
      | none => (Response.redirect "/dashboard?error=Product not found", s)
      | some product =>
          if product.stock_quantity ≤ 0 then
            (Response.redirect "/dashboard?error=Product out of stock", s)
          else if user.points < product.cost_points then
            (Response.redirect "/dashboard?error=Insufficient points", s)
          else
            let tx : Transaction :=
              ⟨s.nextTxId, user.id, product.name, -product.cost_points, s.clock⟩
            (Response.redirect "/dashboard",
             { s with
               users := s.users.map (fun u =>
                 if u.id == user.id then { u with points := u.points - product.cost_points } else u)
               products := s.products.map (fun p =>
                 if p.id == product.id then { p with stock_quantity := p.stock_quantity - 1 } else p)
               transactions := s.transactions ++ [tx]
               nextTxId := s.nextTxId + 1
               clock := s.clock + 1 })

/-- `admin_panel` (main.py, GET /admin); read-only. -/
def admin_panel (sess : Session) (s : Store) : Response :=
  match get_user_from_session sess s with
  | none => Response.redirect "/login"
  | some user =>
      if !user.is_admin then Response.redirect "/login"
      else
        let users := s.users.filter (fun u => !u.is_admin)
        Response.adminPage user users users.length s.products

/-- `delete_user` (main.py, POST /api/admin/delete-user). -/
def delete_user (sess : Session) (user_id : Int) (s : Store) :
    Response × Store :=
  match get_user_from_session sess s with
  | none => (Response.redirect "/login", s)
  | some admin =>
      if !admin.is_admin then (Response.redirect "/login", s)
      else
        match s.users.find? (fun u => u.id == user_id) with
        | some user =>
            if user.is_admin then (Response.redirect "/admin", s)
            else
              (Response.redirect "/admin",
               { s with
                 transactions := s.transactions.filter (fun t => !(t.user_id == user_id))
                 users := s.users.filter (fun u => !(u.id == user_id)) })
        | none => (Response.redirect "/admin", s)

/-- `update_user_points` (main.py, POST /api/admin/update-points).
`max(0, points)` clamps the stored balance; an admin target is silently
skipped. -/
def update_user_points (sess : Session) (user_id points : Int) (s : Store) :
    Response × Store :=
  match get_user_from_session sess s with
  | none => (Response.redirect "/login", s)
  | some admin =>
      if !admin.is_admin then (Response.redirect "/login", s)
      else
        match s.users.find? (fun u => u.id == user_id) with
        | some user =>
            if user.is_admin then (Response.redirect "/admin", s)
            else
              (Response.redirect "/admin",
               { s with users := s.users.map (fun u =>
                   if u.id == user_id then { u with points := max 0 points } else u) })
        | none => (Response.redirect "/admin", s)

/-- `delete_all_users` (main.py, POST /api/admin/delete-all-users): delete
every non-admin user and each one's transactions. -/
def delete_all_users (sess : Session) (s : Store) : Response × Store :=
  match get_user_from_session sess s with
  | none => (Response.redirect "/login", s)
  | some admin =>
      if !admin.is_admin then (Response.redirect "/login", s)
      else
        let victims := s.users.filter (fun u => !u.is_admin)
        (Response.redirect "/admin",
         { s with
           users := s.users.filter (fun u => u.is_admin)
           transactions := s.transactions.filter (fun t =>
             !(victims.any (fun u => u.id == t.user_id))) })

/-- `update_product_stock` (main.py, POST /api/admin/update-stock).
`max(0, stock_quantity)` clamps the stored stock; a missing product id is
silently skipped. -/
def update_product_stock (sess : Session) (product_id stock_quantity : Int)
    (s : Store) : Response × Store :=
  match get_user_from_session sess s with
  | none => (Response.redirect "/login", s)
  | some admin =>
      if !admin.is_admin then (Response.redirect "/login", s)
      else
        match s.products.find? (fun p => p.id == product_id) with
        | some _ =>
            (Response.redirect "/admin",
             { s with products := s.products.map (fun p =>
                 if p.id == product_id then { p with stock_quantity := max 0 stock_quantity } else p) })
        | none => (Response.redirect "/admin", s)

/-- The store-mutating operations of the app, as one request each. -/
inductive Op where
  | signup (name student_id password : String) (sess : Session)
  | purchase (sess : Session) (product_id : Int)
  | update_user_points (sess : Session) (user_id points : Int)
  | update_product_stock (sess : Session) (product_id stock_quantity : Int)
  | delete_user (sess : Session) (user_id : Int)
  | delete_all_users (sess : Session)

/-- The store after one operation. -/
def applyOp : Op → Store → Store
  | Op.signup name sid pwd sess, s => (signup name sid pwd sess s).2.1
  | Op.purchase sess pid, s => (purchase sess pid s).2
  | Op.update_user_points sess uid pts, s => (update_user_points sess uid pts s).2
  | Op.update_product_stock sess pid qty, s => (update_product_stock sess pid qty s).2
  | Op.delete_user sess uid, s => (delete_user sess uid s).2
  | Op.delete_all_users sess, s => (delete_all_users sess s).2

/-- States reachable from a starting store by any sequence of requests. -/
inductive Reachable : Store → Store → Prop
  | refl (s : Store) : Reachable s s
  | step {s0 s : Store} (op : Op) : Reachable s0 s → Reachable s0 (applyOp op s)

/-- The spec's invariant: no negative balance, no negative stock. -/
def Inv (s : Store) : Prop :=
  (∀ u ∈ s.users, 0 ≤ u.points) ∧ (∀ p ∈ s.products, 0 ≤ p.stock_quantity)

/-- Schema well-formedness of a database state: `id` is an autoincrement
primary key, so user ids are pairwise distinct and below the next
autoincrement value, and product ids are pairwise distinct. -/
def WF (s : Store) : Prop :=
  s.users.Pairwise (fun a b => a.id ≠ b.id) ∧
  (∀ u ∈ s.users, u.id < s.nextUserId) ∧
  s.products.Pairwise (fun a b => a.id ≠ b.id)

/-- A small concrete database state: the seeded admin, one member with 40
points, one product costing 35 with stock 9. -/
def sampleStore : Store :=
  ⟨[⟨1, "Admin", 0, 1234, 0, true⟩, ⟨2, "Alice", 123456789, 1111, 40, false⟩],
   [⟨1, "Soda", 35, 9, "soda.png"⟩], [], 3, 1, 0⟩

/-! ### Helper lemmas -/

/-- `find?` commutes with a map that does not change the predicate's
verdict (e.g. an update that preserves the primary key). -/
theorem find?_map_congr {α : Type} (f : α → α) (p : α → Bool)
    (hf : ∀ a, p (f a) = p a) :
    ∀ l : List α, (l.map f).find? p = (l.find? p).map f := by
  intro l
  induction l with
  | nil => rfl
  | cons x xs ih =>
      cases hx : p x with
      | true =>
          rw [List.map_cons, List.find?_cons_of_pos _ ((hf x).trans hx),
            List.find?_cons_of_pos _ hx]
          rfl
      | false =>
          rw [List.map_cons, List.find?_cons_of_neg _ (by simp [hf x, hx]),
            List.find?_cons_of_neg _ (by simp [hx]), ih]

/-- In a list whose elements have pairwise-distinct keys (a primary-key
column), two members with the same key are the same row. -/
theorem mem_eq_of_pairwise_key {α : Type} (key : α → Int) :
    ∀ {l : List α}, l.Pairwise (fun a b => key a ≠ key b) →
      ∀ {a b : α}, a ∈ l → b ∈ l → key a = key b → a = b := by
  intro l
  induction l with
  | nil => intro _ a b ha; cases ha
  | cons x xs ih =>
      intro hp a b ha hb hk
      rcases List.pairwise_cons.mp hp with ⟨hx, hxs⟩
      rcases List.mem_cons.mp ha with ha1 | ha2
      · rcases List.mem_cons.mp hb with hb1 | hb2
        · rw [ha1, hb1]
        · subst ha1
          exact absurd hk (hx b hb2)
      · rcases List.mem_cons.mp hb with hb1 | hb2
        · subst hb1
          exact absurd hk.symm (hx a ha2)
        · exact ih hxs ha2 hb2 hk

/-- Unfolding a successful session resolution: the session carries a
non-zero `user_id` and the lookup finds a user with that id. -/
theorem get_user_from_session_eq_some {sess : Session} {s : Store} {user : User}
    (h : get_user_from_session sess s = some user) :
    ∃ uid, sess.user_id = some uid ∧ uid ≠ 0 ∧
      s.users.find? (fun u => u.id == uid) = some user ∧ user.id = uid := by
  cases huid : sess.user_id with
  | none => simp [get_user_from_session, huid] at h
  | some uid =>
      by_cases h0 : uid = 0
      · simp [get_user_from_session, huid, h0] at h
      · simp only [get_user_from_session, huid] at h
        rw [if_neg (by simp [h0])] at h
        exact ⟨uid, rfl, h0, h, by simpa using List.find?_some h⟩

/-- A resolved user is found by its own id. -/
theorem find?_id_of_get_user {sess : Session} {s : Store} {user : User}
    (h : get_user_from_session sess s = some user) :
    s.users.find? (fun u => u.id == user.id) = some user := by
  obtain ⟨uid, _, _, hfind, hid⟩ := get_user_from_session_eq_some h
  rw [hid]; exact hfind

/-- A resolved user is a member of the users table. -/
theorem mem_of_get_user {sess : Session} {s : Store} {user : User}
    (h : get_user_from_session sess s = some user) : user ∈ s.users := by
  obtain ⟨uid, _, _, hfind, _⟩ := get_user_from_session_eq_some h
  exact List.mem_of_find?_eq_some hfind

/-! ### C1: successful purchase -/

/-- C1: when the session resolves to a user, the product exists with
positive stock, and the user's points cover the cost, `purchase` succeeds
(redirect to /dashboard) and afterwards the user's points are debited by
`cost_points`, the product's stock is decremented by one, and exactly one
new ledger entry `(user.id, product.name, -cost_points)` is appended. -/
theorem purchase_success_spec
    (sess : Session) (pid : Int) (s : Store) (user : User) (product : Product)
    (huser : get_user_from_session sess s = some user)
    (hprod : s.products.find? (fun p => p.id == pid) = some product)
    (hstock : 0 < product.stock_quantity)
    (hpts : product.cost_points ≤ user.points) :
    (purchase sess pid s).1 = Response.redirect "/dashboard" ∧
    (purchase sess pid s).2.users.find? (fun u => u.id == user.id) =
      some { user with points := user.points - product.cost_points } ∧
    (purchase sess pid s).2.products.find? (fun p => p.id == pid) =
      some { product with stock_quantity := product.stock_quantity - 1 } ∧
    (purchase sess pid s).2.transactions =
      s.transactions ++ [⟨s.nextTxId, user.id, product.name, -product.cost_points, s.clock⟩] := by
  have hpidq : product.id = pid := by simpa using List.find?_some hprod
  subst hpidq
  have hstep : purchase sess product.id s =
      (Response.redirect "/dashboard",
       { s with
         users := s.users.map (fun u =>
           if u.id == user.id then { u with points := u.points - product.cost_points } else u)
         products := s.products.map (fun p =>
           if p.id == product.id then { p with stock_quantity := p.stock_quantity - 1 } else p)
         transactions := s.transactions ++
           [⟨s.nextTxId, user.id, product.name, -product.cost_points, s.clock⟩]
         nextTxId := s.nextTxId + 1
         clock := s.clock + 1 }) := by
    simp only [purchase, huser, hprod]
    rw [if_neg (not_le.mpr hstock), if_neg (not_lt.mpr hpts)]
  have hfu : ∀ u : User,
      (((if u.id == user.id then { u with points := u.points - product.cost_points } else u).id)
        == user.id) = (u.id == user.id) := by
    intro u
    by_cases h : u.id = user.id <;> simp [h]
  have hfp : ∀ p : Product,
      (((if p.id == product.id then { p with stock_quantity := p.stock_quantity - 1 } else p).id)
        == product.id) = (p.id == product.id) := by
    intro p
    by_cases h : p.id = product.id <;> simp [h]
  rw [hstep]
  refine ⟨rfl, ?_, ?_, rfl⟩
  · rw [find?_map_congr
        (fun u => if u.id == user.id then { u with points := u.points - product.cost_points } else u)
        (fun u => u.id == user.id) hfu s.users,
      find?_id_of_get_user huser]
    simp
  · rw [find?_map_congr
        (fun p => if p.id == product.id then { p with stock_quantity := p.stock_quantity - 1 } else p)
        (fun p => p.id == product.id) hfp s.products,
      hprod]
    simp

/-- Witness for C1 (Scenario A shape: 40 points, cost 35, stock 9). -/
theorem purchase_success_spec_witness :
    (purchase ⟨some 2, some false⟩ 1
        ⟨[⟨2, "Alice", 123456789, 1111, 40, false⟩],
         [⟨1, "Soda", 35, 9, "soda.png"⟩], [], 3, 1, 0⟩).1 =
      Response.redirect "/dashboard" ∧
    (purchase ⟨some 2, some false⟩ 1
        ⟨[⟨2, "Alice", 123456789, 1111, 40, false⟩],
         [⟨1, "Soda", 35, 9, "soda.png"⟩], [], 3, 1, 0⟩).2.users.find?
        (fun u => u.id == (2 : Int)) =
      some ⟨2, "Alice", 123456789, 1111, 5, false⟩ :=
  ⟨(purchase_success_spec ⟨some 2, some false⟩ 1 _
      ⟨2, "Alice", 123456789, 1111, 40, false⟩ ⟨1, "Soda", 35, 9, "soda.png"⟩
      (by decide) (by decide) (by decide) (by decide)).1,
   (purchase_success_spec ⟨some 2, some false⟩ 1 _
      ⟨2, "Alice", 123456789, 1111, 40, false⟩ ⟨1, "Soda", 35, 9, "soda.png"⟩
      (by decide) (by decide) (by decide) (by decide)).2.1⟩

/-! ### C2, C3: rejection order and absence of mutation -/

/-- Every purchase either succeeds with the plain dashboard redirect or
leaves the store untouched. -/
theorem purchase_result_cases (sess : Session) (pid : Int) (s : Store) :
    (purchase sess pid s).1 = Response.redirect "/dashboard" ∨
    (purchase sess pid s).2 = s := by
  unfold purchase
  split
  · right; rfl
  · split
    · right; rfl
    · split
      · right; rfl
      · split
        · right; rfl
        · left; rfl

/-- An `Insufficient points` rejection can only arise after the product was
found and its stock check passed. -/
theorem purchase_insufficient_inv (sess : Session) (pid : Int) (s : Store)
    (h : (purchase sess pid s).1 = Response.redirect "/dashboard?error=Insufficient points") :
    ∃ product, s.products.find? (fun p => p.id == pid) = some product ∧
      0 < product.stock_quantity := by
  unfold purchase at h
  split at h
  · simp at h
  · split at h
    · simp at h
    · split at h
      · simp at h
      · split at h
        · rename_i user huser product hprod hs hpts
          exact ⟨product, hprod, by omega⟩
        · simp at h

/-- C2: the stock check precedes the balance check.  A found product with
zero stock is always rejected `out_of_stock` (whatever the user's balance),
and an `insufficient_points` rejection only happens when the product was
found with positive stock. -/
theorem purchase_stock_before_balance :
    (∀ (sess : Session) (pid : Int) (s : Store) (user : User) (product : Product),
        get_user_from_session sess s = some user →
        s.products.find? (fun p => p.id == pid) = some product →
        product.stock_quantity = 0 →
        (purchase sess pid s).1 = Response.redirect "/dashboard?error=Product out of stock") ∧
    (∀ (sess : Session) (pid : Int) (s : Store),
        (purchase sess pid s).1 = Response.redirect "/dashboard?error=Insufficient points" →
        ∃ product, s.products.find? (fun p => p.id == pid) = some product ∧
          0 < product.stock_quantity) := by
  constructor
  · intro sess pid s user product huser hprod hstock
    simp only [purchase, huser, hprod]
    rw [if_pos (by omega)]
  · intro sess pid s h
    exact purchase_insufficient_inv sess pid s h

/-- Witness for C2 (Scenario C shape: stock 0 and also insufficient points,
still reported out of stock). -/
theorem purchase_stock_before_balance_witness :
    (purchase ⟨some 2, some false⟩ 1
        ⟨[⟨2, "Bob", 123456780, 1111, 10, false⟩],
         [⟨1, "Chocolate", 50, 0, "chocolate.png"⟩], [], 3, 1, 0⟩).1 =
      Response.redirect "/dashboard?error=Product out of stock" ∧
    (∃ product,
        (⟨[⟨2, "Bob", 123456780, 1111, 10, false⟩],
          [⟨1, "Water", 15, 3, "water.png"⟩], [], 3, 1, 0⟩ : Store).products.find?
            (fun p => p.id == (1 : Int)) = some product ∧
        0 < product.stock_quantity) :=
  ⟨purchase_stock_before_balance.1 ⟨some 2, some false⟩ 1 _
      ⟨2, "Bob", 123456780, 1111, 10, false⟩ ⟨1, "Chocolate", 50, 0, "chocolate.png"⟩
      (by decide) (by decide) (by decide),
   purchase_stock_before_balance.2 ⟨some 2, some false⟩ 1 _ (by decide)⟩

/-- C3: a rejected purchase (any response other than the success redirect)
leaves the store exactly as it was: user points, product stocks and the
ledger are unchanged. -/
theorem purchase_rejection_no_mutation (sess : Session) (pid : Int) (s : Store)
    (h : (purchase sess pid s).1 ≠ Response.redirect "/dashboard") :
    (purchase sess pid s).2 = s := by
  rcases purchase_result_cases sess pid s with hc | hc
  · exact absurd hc h
  · exact hc

/-- Witness for C3 (Scenario B shape: 10 points against cost 15). -/
theorem purchase_rejection_no_mutation_witness :
    (purchase ⟨some 2, some false⟩ 1
        ⟨[⟨2, "Bob", 123456780, 1111, 10, false⟩],
         [⟨1, "Water", 15, 3, "water.png"⟩], [], 3, 1, 0⟩).2 =
      ⟨[⟨2, "Bob", 123456780, 1111, 10, false⟩],
       [⟨1, "Water", 15, 3, "water.png"⟩], [], 3, 1, 0⟩ :=
  purchase_rejection_no_mutation ⟨some 2, some false⟩ 1 _ (by decide)

/-! ### C5: setUserPoints on an admin target -/

/-- C5 (amended): when the caller passes the admin gate and the target user
exists and is itself an admin, `update_user_points` leaves the whole store
unchanged — but it does not fail with `Forbidden`: it returns the same
plain `/admin` redirect as a successful update (a silent refusal). -/
theorem update_points_admin_target_silent
    (sess : Session) (s : Store) (uid pts : Int) (admin target : User)
    (ha : get_user_from_session sess s = some admin)
    (hadm : admin.is_admin = true)
    (ht : s.users.find? (fun u => u.id == uid) = some target)
    (htadm : target.is_admin = true) :
    update_user_points sess uid pts s = (Response.redirect "/admin", s) := by
  simp [update_user_points, ha, hadm, ht, htadm]

/-- Witness for C5's amended theorem. -/
theorem update_points_admin_target_silent_witness :
    update_user_points ⟨some 1, some true⟩ 2 (-5)
        ⟨[⟨1, "Admin", 0, 1234, 0, true⟩, ⟨2, "Root", 999999999, 4321, 7, true⟩],
         [], [], 3, 1, 0⟩ =
      (Response.redirect "/admin",
       ⟨[⟨1, "Admin", 0, 1234, 0, true⟩, ⟨2, "Root", 999999999, 4321, 7, true⟩],
        [], [], 3, 1, 0⟩) :=
  update_points_admin_target_silent ⟨some 1, some true⟩ _ 2 (-5)
    ⟨1, "Admin", 0, 1234, 0, true⟩ ⟨2, "Root", 999999999, 4321, 7, true⟩
    (by decide) (by decide) (by decide) (by decide)

/-- C5 counterexample: with an admin caller and an admin target (user 2),
the operation does not fail with `Forbidden` — there is no error rendering
at all: it returns the plain `/admin` redirect, which is not the redirect
to `/login` that `Forbidden` produces elsewhere, and which is exactly the
response of a successful update on a non-admin target (user 3). -/
theorem update_points_admin_target_cex :
    update_user_points ⟨some 1, some true⟩ 2 (-5)
        ⟨[⟨1, "Admin", 0, 1234, 0, true⟩, ⟨2, "Root", 999999999, 4321, 7, true⟩,
          ⟨3, "Carol", 123456780, 2222, 9, false⟩], [], [], 4, 1, 0⟩ =
      (Response.redirect "/admin",
       ⟨[⟨1, "Admin", 0, 1234, 0, true⟩, ⟨2, "Root", 999999999, 4321, 7, true⟩,
         ⟨3, "Carol", 123456780, 2222, 9, false⟩], [], [], 4, 1, 0⟩) ∧
    (update_user_points ⟨some 1, some true⟩ 2 (-5)
        ⟨[⟨1, "Admin", 0, 1234, 0, true⟩, ⟨2, "Root", 999999999, 4321, 7, true⟩,
          ⟨3, "Carol", 123456780, 2222, 9, false⟩], [], [], 4, 1, 0⟩).1 ≠
      Response.redirect "/login" ∧
    (update_user_points ⟨some 1, some true⟩ 2 (-5)
        ⟨[⟨1, "Admin", 0, 1234, 0, true⟩, ⟨2, "Root", 999999999, 4321, 7, true⟩,
          ⟨3, "Carol", 123456780, 2222, 9, false⟩], [], [], 4, 1, 0⟩).1 =
      (update_user_points ⟨some 1, some true⟩ 3 25
        ⟨[⟨1, "Admin", 0, 1234, 0, true⟩, ⟨2, "Root", 999999999, 4321, 7, true⟩,
          ⟨3, "Carol", 123456780, 2222, 9, false⟩], [], [], 4, 1, 0⟩).1 := by
  refine ⟨by decide, by decide, by decide⟩

/-! ### C6: setProductStock on a missing product id -/

/-- C6 (amended): with an admin caller, a `setStock` call on a product id
absent from the catalog changes no store state, but it does not fail with
`NotFound`: it returns the same plain `/admin` redirect as a successful
update.  When the id is present, the supplied quantity is clamped to ≥ 0
and stored, and no other table changes. -/
theorem update_stock_missing_silent_and_clamp
    (sess : Session) (s : Store) (pid qty : Int) (admin : User)
    (ha : get_user_from_session sess s = some admin)
    (hadm : admin.is_admin = true) :
    (s.products.find? (fun p => p.id == pid) = none →
      update_product_stock sess pid qty s = (Response.redirect "/admin", s)) ∧
    (∀ product, s.products.find? (fun p => p.id == pid) = some product →
      (update_product_stock sess pid qty s).1 = Response.redirect "/admin" ∧
      (update_product_stock sess pid qty s).2.products.find? (fun p => p.id == pid) =
        some { product with stock_quantity := max 0 qty } ∧
      (update_product_stock sess pid qty s).2.users = s.users ∧
      (update_product_stock sess pid qty s).2.transactions = s.transactions) := by
  constructor
  · intro hnone
    simp [update_product_stock, ha, hadm, hnone]
  · intro product hfind
    have hpq : product.id = pid := by simpa using List.find?_some hfind
    subst hpq
    have hfp : ∀ p : Product,
        (((if p.id == product.id then { p with stock_quantity := max 0 qty } else p).id)
          == product.id) = (p.id == product.id) := by
      intro p
      by_cases h : p.id = product.id <;> simp [h]
    refine ⟨by simp [update_product_stock, ha, hadm, hfind], ?_,
      by simp [update_product_stock, ha, hadm, hfind],
      by simp [update_product_stock, ha, hadm, hfind]⟩
    simp only [update_product_stock, ha, hadm, hfind]
    rw [if_neg (by simp)]
    rw [find?_map_congr
        (fun p => if p.id == product.id then { p with stock_quantity := max 0 qty } else p)
        (fun p => p.id == product.id) hfp s.products,
      hfind]
    simp

/-- Witness for C6's amended theorem (absent id 99 and present id 1). -/
theorem update_stock_missing_silent_and_clamp_witness :
    (update_product_stock ⟨some 1, some true⟩ 99 5
        ⟨[⟨1, "Admin", 0, 1234, 0, true⟩], [⟨1, "Water", 15, 3, "water.png"⟩], [], 2, 1, 0⟩ =
      (Response.redirect "/admin",
       ⟨[⟨1, "Admin", 0, 1234, 0, true⟩], [⟨1, "Water", 15, 3, "water.png"⟩], [], 2, 1, 0⟩)) ∧
    (update_product_stock ⟨some 1, some true⟩ 1 (-7)
        ⟨[⟨1, "Admin", 0, 1234, 0, true⟩], [⟨1, "Water", 15, 3, "water.png"⟩], [], 2, 1, 0⟩).2.products.find?
        (fun p => p.id == (1 : Int)) =
      some ⟨1, "Water", 15, 0, "water.png"⟩ :=
  ⟨(update_stock_missing_silent_and_clamp ⟨some 1, some true⟩ _ 99 5
      ⟨1, "Admin", 0, 1234, 0, true⟩ (by decide) (by decide)).1 (by decide),
   by
    have h := (update_stock_missing_silent_and_clamp ⟨some 1, some true⟩
      ⟨[⟨1, "Admin", 0, 1234, 0, true⟩], [⟨1, "Water", 15, 3, "water.png"⟩], [], 2, 1, 0⟩
      1 (-7) ⟨1, "Admin", 0, 1234, 0, true⟩ (by decide) (by decide)).2
      ⟨1, "Water", 15, 3, "water.png"⟩ (by decide)
    simpa using h.2.1⟩

/-- C6 counterexample: `setStock` on the absent product id 99 does not fail
with `NotFound`: the store is unchanged but the response is the plain
`/admin` redirect — identical to the response of a successful stock update
on the existing product 1, so no failure is surfaced. -/
theorem update_stock_missing_cex :
    update_product_stock ⟨some 1, some true⟩ 99 5
        ⟨[⟨1, "Admin", 0, 1234, 0, true⟩], [⟨1, "Water", 15, 3, "water.png"⟩], [], 2, 1, 0⟩ =
      (Response.redirect "/admin",
       ⟨[⟨1, "Admin", 0, 1234, 0, true⟩], [⟨1, "Water", 15, 3, "water.png"⟩], [], 2, 1, 0⟩) ∧
    (update_product_stock ⟨some 1, some true⟩ 99 5
        ⟨[⟨1, "Admin", 0, 1234, 0, true⟩], [⟨1, "Water", 15, 3, "water.png"⟩], [], 2, 1, 0⟩).1 =
      (update_product_stock ⟨some 1, some true⟩ 1 5
        ⟨[⟨1, "Admin", 0, 1234, 0, true⟩], [⟨1, "Water", 15, 3, "water.png"⟩], [], 2, 1, 0⟩).1 := by
  refine ⟨by decide, by decide⟩

/-! ### C7: signup identifier validation -/

/-- C9 (amended): a login request with the literal identifier "0" (length
1) always fails the 9-10-digit validation and returns the identifier
validation error with the session untouched; however this does not keep
the seeded admin out of the public login endpoint, because 9-10 digit
spellings of the reserved identifier with leading zeros reach the admin
row (see the counterexample). -/
theorem login_reserved_literal_rejected (pwd : String) (sess : Session) (s : Store) :
    login "0" pwd sess s =
      (Response.loginPage "login" (some "Invalid StudentID. Must be 9-10 digits."), sess) := by
  have hv : validate_student_id "0" = false := by decide
  unfold login
  rw [hv]
  rfl

/-- C9 counterexample: the seeded admin CAN authenticate through the public
login endpoint.  Starting from the seeded store, the identifier
"000000000" (nine digits, so it passes validation) parses to the reserved
value 0 and, with the default password 1234, logs in as the admin: the
response is the admin redirect and the session now carries the admin
identity. -/
theorem admin_login_leading_zeros_cex :
    login "000000000" "1234" ⟨none, none⟩ (startup_event ⟨[], [], [], 1, 1, 0⟩) =
      (Response.redirect "/admin", ⟨some 1, some true⟩) := by decide

/-! ### C10: dangling sessions are anonymous -/

/-- C10: a session whose `user_id` matches no user row resolves to no user,
and every protected endpoint (dashboard, purchase, admin panel and all four
admin mutations) answers with the redirect to the login page and leaves the
store unchanged. -/
theorem dangling_session_anonymous
    (sess : Session) (uid : Int) (s : Store)
    (hsid : sess.user_id = some uid)
    (hfind : s.users.find? (fun u => u.id == uid) = none) :
    get_user_from_session sess s = none ∧
    (∀ err, dashboard sess err s = Response.redirect "/login") ∧
    (∀ pid, purchase sess pid s = (Response.redirect "/login", s)) ∧
    admin_panel sess s = Response.redirect "/login" ∧
    (∀ t, delete_user sess t s = (Response.redirect "/login", s)) ∧
    (∀ t pts, update_user_points sess t pts s = (Response.redirect "/login", s)) ∧
    delete_all_users sess s = (Response.redirect "/login", s) ∧
    (∀ pid qty, update_product_stock sess pid qty s = (Response.redirect "/login", s)) := by
  have hg : get_user_from_session sess s = none := by
    by_cases h0 : uid = 0 <;> simp [get_user_from_session, hsid, h0, hfind]
  refine ⟨hg, ?_, ?_, ?_, ?_, ?_, ?_, ?_⟩ <;>
    simp [dashboard, purchase, admin_panel, delete_user, update_user_points,
      delete_all_users, update_product_stock, hg]

/-- Witness for C10: a session pointing at the deleted user id 99. -/
theorem dangling_session_anonymous_witness :
    get_user_from_session ⟨some 99, some false⟩
      ⟨[⟨1, "Admin", 0, 1234, 0, true⟩], [⟨1, "Water", 15, 3, "water.png"⟩], [], 2, 1, 0⟩ = none ∧
    purchase ⟨some 99, some false⟩ 1
      ⟨[⟨1, "Admin", 0, 1234, 0, true⟩], [⟨1, "Water", 15, 3, "water.png"⟩], [], 2, 1, 0⟩ =
      (Response.redirect "/login",
       ⟨[⟨1, "Admin", 0, 1234, 0, true⟩], [⟨1, "Water", 15, 3, "water.png"⟩], [], 2, 1, 0⟩) ∧
    dashboard ⟨some 99, some false⟩ none
      ⟨[⟨1, "Admin", 0, 1234, 0, true⟩], [⟨1, "Water", 15, 3, "water.png"⟩], [], 2, 1, 0⟩ =
      Response.redirect "/login" :=
  have h := dangling_session_anonymous ⟨some 99, some false⟩ 99
    ⟨[⟨1, "Admin", 0, 1234, 0, true⟩], [⟨1, "Water", 15, 3, "water.png"⟩], [], 2, 1, 0⟩
    (by decide) (by decide)
  ⟨h.1, h.2.2.1 1, h.2.1 none⟩

/-! ### C4: the non-negativity invariant over all reachable states -/

/-- An update that preserves the key keeps pairwise key-distinctness. -/
theorem pairwise_key_map {α : Type} (key : α → Int) (f : α → α)
    (hf : ∀ a, key (f a) = key a) {l : List α}
    (h : l.Pairwise (fun a b => key a ≠ key b)) :
    (l.map f).Pairwise (fun a b => key a ≠ key b) := by
  induction h with
  | nil => exact List.Pairwise.nil
  | cons hx _ ih =>
      rw [List.map_cons]
      refine List.Pairwise.cons ?_ ih
      intro b hb
      obtain ⟨c, hc, rfl⟩ := List.mem_map.mp hb
      rw [hf, hf]
      exact hx c hc

/-- `signup` preserves schema well-formedness and the invariant. -/
theorem signup_preserves (name sid pwd : String) (sess : Session) (s : Store)
    (hwf : WF s) (hinv : Inv s) :
    WF (signup name sid pwd sess s).2.1 ∧ Inv (signup name sid pwd sess s).2.1 := by
  unfold signup
  split
  · exact ⟨hwf, hinv⟩
  · split
    · exact ⟨hwf, hinv⟩
    · split
      · exact ⟨hwf, hinv⟩
      · split
        · exact ⟨hwf, hinv⟩
        · refine ⟨⟨?_, ?_, ?_⟩, ⟨?_, ?_⟩⟩
          · apply List.pairwise_append.mpr
            refine ⟨hwf.1, List.pairwise_singleton _ _, ?_⟩
            intro a ha b hb
            rw [List.mem_singleton] at hb
            subst hb
            have := hwf.2.1 a ha
            show a.id ≠ s.nextUserId
            omega
          · intro u hu
            rcases List.mem_append.mp hu with h1 | h2
            · have := hwf.2.1 u h1
              show u.id < s.nextUserId + 1
              omega
            · rw [List.mem_singleton] at h2
              subst h2
              show s.nextUserId < s.nextUserId + 1
              omega
          · exact hwf.2.2
          · intro u hu
            rcases List.mem_append.mp hu with h1 | h2
            · exact hinv.1 u h1
            · rw [List.mem_singleton] at h2
              subst h2
              show (0 : Int) ≤ 0
              omega
          · exact hinv.2

/-- `purchase` preserves schema well-formedness and the invariant. -/
theorem purchase_preserves (sess : Session) (pid : Int) (s : Store)
    (hwf : WF s) (hinv : Inv s) :
    WF (purchase sess pid s).2 ∧ Inv (purchase sess pid s).2 := by
  unfold purchase
  split
  · exact ⟨hwf, hinv⟩
  · split
    · exact ⟨hwf, hinv⟩
    · split
      · exact ⟨hwf, hinv⟩
      · split
        · exact ⟨hwf, hinv⟩
        · rename_i xu user huser xp product hprod hstock hpts
          refine ⟨⟨?_, ?_, ?_⟩, ⟨?_, ?_⟩⟩
          · exact pairwise_key_map (fun u : User => u.id) _
              (fun u : User => by by_cases h : u.id = user.id <;> simp [h]) hwf.1
          · intro u hu
            obtain ⟨c, hc, rfl⟩ := List.mem_map.mp hu
            have hcid : (if c.id == user.id then
                { c with points := c.points - product.cost_points } else c).id = c.id := by
              by_cases h : c.id = user.id <;> simp [h]
            rw [hcid]
            exact hwf.2.1 c hc
          · exact pairwise_key_map (fun p : Product => p.id) _
              (fun p : Product => by by_cases h : p.id = product.id <;> simp [h]) hwf.2.2
          · intro u hu
            obtain ⟨c, hc, rfl⟩ := List.mem_map.mp hu
            by_cases h : c.id = user.id
            · have hcu : c = user :=
                mem_eq_of_pairwise_key (fun u => u.id) hwf.1 hc (mem_of_get_user huser) h
              subst hcu
              simp
              omega
            · simpa [h] using hinv.1 c hc
          · intro p hp
            obtain ⟨c, hc, rfl⟩ := List.mem_map.mp hp
            by_cases h : c.id = product.id
            · have hcp : c = product :=
                mem_eq_of_pairwise_key (fun p => p.id) hwf.2.2 hc
                  (List.mem_of_find?_eq_some hprod) h
              subst hcp
              simp
              omega
            · simpa [h] using hinv.2 c hc

/-- `update_user_points` preserves well-formedness and the invariant. -/
theorem update_user_points_preserves (sess : Session) (uid pts : Int) (s : Store)
    (hwf : WF s) (hinv : Inv s) :
    WF (update_user_points sess uid pts s).2 ∧ Inv (update_user_points sess uid pts s).2 := by
  unfold update_user_points
  split
  · exact ⟨hwf, hinv⟩
  · split
    · exact ⟨hwf, hinv⟩
    · split
      · split
        · exact ⟨hwf, hinv⟩
        · refine ⟨⟨?_, ?_, ?_⟩, ⟨?_, ?_⟩⟩
          · exact pairwise_key_map (fun u : User => u.id) _
              (fun u : User => by by_cases h : u.id = uid <;> simp [h]) hwf.1
          · intro u hu
            obtain ⟨c, hc, rfl⟩ := List.mem_map.mp hu
            have hcid : (if c.id == uid then { c with points := max 0 pts } else c).id = c.id := by
              by_cases h : c.id = uid <;> simp [h]
            rw [hcid]
            exact hwf.2.1 c hc
          · exact hwf.2.2
          · intro u hu
            obtain ⟨c, hc, rfl⟩ := List.mem_map.mp hu
            by_cases h : c.id = uid
            · simp [h]
            · simpa [h] using hinv.1 c hc
          · exact hinv.2
      · exact ⟨hwf, hinv⟩

/-- `update_product_stock` preserves well-formedness and the invariant. -/
theorem update_product_stock_preserves (sess : Session) (pid qty : Int) (s : Store)
    (hwf : WF s) (hinv : Inv s) :
    WF (update_product_stock sess pid qty s).2 ∧ Inv (update_product_stock sess pid qty s).2 := by
  unfold update_product_stock
  split
  · exact ⟨hwf, hinv⟩
  · split
    · exact ⟨hwf, hinv⟩
    · split
      · refine ⟨⟨hwf.1, hwf.2.1, ?_⟩, ⟨hinv.1, ?_⟩⟩
        · exact pairwise_key_map (fun p : Product => p.id) _
            (fun p : Product => by by_cases h : p.id = pid <;> simp [h]) hwf.2.2
        · intro p hp
          obtain ⟨c, hc, rfl⟩ := List.mem_map.mp hp
          by_cases h : c.id = pid
          · simp [h]
          · simpa [h] using hinv.2 c hc
      · exact ⟨hwf, hinv⟩

/-- `delete_user` preserves well-formedness and the invariant. -/
theorem delete_user_preserves (sess : Session) (uid : Int) (s : Store)
    (hwf : WF s) (hinv : Inv s) :
    WF (delete_user sess uid s).2 ∧ Inv (delete_user sess uid s).2 := by
  unfold delete_user
  split
  · exact ⟨hwf, hinv⟩
  · split
    · exact ⟨hwf, hinv⟩
    · split
      · split
        · exact ⟨hwf, hinv⟩
        · refine ⟨⟨?_, ?_, hwf.2.2⟩, ⟨?_, hinv.2⟩⟩
          · exact hwf.1.sublist (List.filter_sublist _)
          · intro u hu
            exact hwf.2.1 u (List.mem_of_mem_filter hu)
          · intro u hu
            exact hinv.1 u (List.mem_of_mem_filter hu)
      · exact ⟨hwf, hinv⟩

/-- `delete_all_users` preserves well-formedness and the invariant. -/
theorem delete_all_users_preserves (sess : Session) (s : Store)
    (hwf : WF s) (hinv : Inv s) :
    WF (delete_all_users sess s).2 ∧ Inv (delete_all_users sess s).2 := by
  unfold delete_all_users
  split
  · exact ⟨hwf, hinv⟩
  · split
    · exact ⟨hwf, hinv⟩
    · refine ⟨⟨?_, ?_, hwf.2.2⟩, ⟨?_, hinv.2⟩⟩
      · exact hwf.1.sublist (List.filter_sublist _)
      · intro u hu
        exact hwf.2.1 u (List.mem_of_mem_filter hu)
      · intro u hu
        exact hinv.1 u (List.mem_of_mem_filter hu)

/-- Every operation preserves well-formedness and the invariant. -/
theorem applyOp_preserves (op : Op) (s : Store) (hwf : WF s) (hinv : Inv s) :
    WF (applyOp op s) ∧ Inv (applyOp op s) := by
  cases op with
  | signup name sid pwd sess => exact signup_preserves name sid pwd sess s hwf hinv
  | purchase sess pid => exact purchase_preserves sess pid s hwf hinv
  | update_user_points sess uid pts =>
      exact update_user_points_preserves sess uid pts s hwf hinv
  | update_product_stock sess pid qty =>
      exact update_product_stock_preserves sess pid qty s hwf hinv
  | delete_user sess uid => exact delete_user_preserves sess uid s hwf hinv
  | delete_all_users sess => exact delete_all_users_preserves sess s hwf hinv

/-- Well-formedness and the invariant hold in every reachable state. -/
theorem reachable_WF_Inv {s0 s : Store} (h : Reachable s0 s)
    (hwf : WF s0) (hinv : Inv s0) : WF s ∧ Inv s := by
  induction h with
  | refl => exact ⟨hwf, hinv⟩
  | step op _ ih => exact applyOp_preserves op _ ih.1 ih.2

/-- C4: starting from a well-formed database state (distinct autoincrement
primary keys, as the schema guarantees) in which every balance and every
stock is non-negative, every state reachable by any sequence of the
operations (signup, purchase, setUserPoints, setProductStock, deleteUser,
deleteAllUsers) still has every user's points ≥ 0 and every product's
stock ≥ 0; moreover `setUserPoints` with a negative requested value stores
exactly 0 for a non-admin target. -/
theorem reachable_nonneg :
    (∀ s0 s, Reachable s0 s → WF s0 → Inv s0 →
      (∀ u ∈ s.users, 0 ≤ u.points) ∧ (∀ p ∈ s.products, 0 ≤ p.stock_quantity)) ∧
    (∀ (sess : Session) (s : Store) (uid pts : Int) (admin target : User),
      get_user_from_session sess s = some admin → admin.is_admin = true →
      s.users.find? (fun u => u.id == uid) = some target → target.is_admin = false →
      pts < 0 →
      (update_user_points sess uid pts s).2.users.find? (fun u => u.id == uid) =
        some { target with points := 0 }) := by
  constructor
  · intro s0 s h hwf hinv
    exact (reachable_WF_Inv h hwf hinv).2
  · intro sess s uid pts admin target ha hadm ht htadm hneg
    have hmax : max 0 pts = 0 := max_eq_left (by omega)
    have htid : target.id = uid := by simpa using List.find?_some ht
    have hfu : ∀ u : User,
        (((if u.id == uid then { u with points := max 0 pts } else u).id) == uid)
          = (u.id == uid) := by
      intro u
      by_cases h : u.id = uid <;> simp [h]
    simp only [update_user_points, ha, ht]
    rw [if_neg (by simp [hadm]), if_neg (by simp [htadm])]
    rw [find?_map_congr
        (fun u => if u.id == uid then { u with points := max 0 pts } else u)
        (fun u => u.id == uid) hfu s.users,
      ht]
    simp [htid, hmax]

/-- Witness for C4: one purchase step from a concrete well-formed store,
and the Scenario E clamp (points set to −5 stored as 0). -/
theorem reachable_nonneg_witness :
    ((∀ u ∈ (applyOp (Op.purchase ⟨some 2, some false⟩ 1) sampleStore).users, 0 ≤ u.points) ∧
     (∀ p ∈ (applyOp (Op.purchase ⟨some 2, some false⟩ 1) sampleStore).products,
        0 ≤ p.stock_quantity)) ∧
    (update_user_points ⟨some 1, some true⟩ 2 (-5) sampleStore).2.users.find?
        (fun u => u.id == (2 : Int)) =
      some ⟨2, "Alice", 123456789, 1111, 0, false⟩ :=
  ⟨reachable_nonneg.1 sampleStore _
      (Reachable.step (Op.purchase ⟨some 2, some false⟩ 1) (Reachable.refl sampleStore))
      (by unfold WF; decide) (by unfold Inv; decide),
   reachable_nonneg.2 ⟨some 1, some true⟩ sampleStore 2 (-5)
      ⟨1, "Admin", 0, 1234, 0, true⟩ ⟨2, "Alice", 123456789, 1111, 40, false⟩
      (by decide) (by decide) (by decide) (by decide) (by decide)⟩

end Rsw
